import Mathlib

set_option maxRecDepth 100000

/- Verification of the SQL editor synchronization layer of the SchemaEditor
   repository: the text-repair passes of the SQL editor (quoting of bare
   multi-word identifiers, de-duplication of foreign-key ALTER TABLE
   statements), the apply/cancel/live-edit transitions of the editor state,
   the layout-preserving reconciliation of freshly parsed schema graphs, and
   the column-rename disambiguation of the schema sidebar. -/

/-! ## Character classes (JavaScript regex semantics, ASCII range) -/

/-- A word character in the sense of the JavaScript regex class \w:
letters, digits and underscore. -/
def isWordChar (c : Char) : Bool := c.isAlphanum || c = '_'

/-- A whitespace character in the sense of the JavaScript regex class \s,
restricted to the ASCII range: space (32), tab (9), line feed (10),
vertical tab (11), form feed (12), carriage return (13). -/
def isWsChar (c : Char) : Bool :=
  c.toNat = 32 || c.toNat = 9 || c.toNat = 10 || c.toNat = 11 ||
  c.toNat = 12 || c.toNat = 13

/-- A quote character as used by the source's lookaheads and the
constraint-name regex: double quote (34), single quote (39), backtick (96). -/
def isQuoteChar (c : Char) : Bool :=
  c.toNat = 34 || c.toNat = 39 || c.toNat = 96

/-! ## Deterministic matchers for the source's regular expressions

The regexes of ensureTableNamesAreQuoted and
removeDuplicateAlterTableStatements (src/app/browse/ui.tsx) consist of
case-insensitive literal keywords, the runs \w+ and \s+, an optional group,
one negative lookahead and a short tail.  Backtracking never rescues a failed
match: every \w+ or \s+ run is followed by an atom that cannot match a
character of the same class, so each run is forced to be maximal.  The
matchers below therefore consume each run greedily and fail definitively. -/

/-- Case-insensitive match of a literal keyword (supplied in lower case),
returning the remaining characters. -/
def matchKeywordCI : List Char → List Char → Option (List Char)
  | [], cs => some cs
  | _ :: _, [] => none
  | k :: ks, c :: cs => if c.toLower = k then matchKeywordCI ks cs else none

/-- Match a keyword followed by a forced-maximal run of at least one
whitespace character (the source patterns KEYWORD\s+). -/
def matchKwWs (kw : String) (cs : List Char) : Option (List Char) :=
  match matchKeywordCI kw.data cs with
  | none => none
  | some r =>
    let ws := r.takeWhile isWsChar
    if ws.isEmpty then none else some (r.dropWhile isWsChar)

/-- Match the capture group (\w+\s+\w+): two maximal word runs separated by a
maximal whitespace run.  Returns the captured text and the rest. -/
def matchTwoWords (cs : List Char) : Option (List Char × List Char) :=
  let w1 := cs.takeWhile isWordChar
  let r1 := cs.dropWhile isWordChar
  if w1.isEmpty then none else
  let ws := r1.takeWhile isWsChar
  let r2 := r1.dropWhile isWsChar
  if ws.isEmpty then none else
  let w2 := r2.takeWhile isWordChar
  let r3 := r2.dropWhile isWordChar
  if w2.isEmpty then none else
  some (w1 ++ ws ++ w2, r3)

/-- The lookahead body: after skipping whitespace the next character is a
quote.  The source regexes use this negated. -/
def quoteAhead (cs : List Char) : Bool :=
  match cs.dropWhile isWsChar with
  | c :: _ => isQuoteChar c
  | [] => false

/-- Match the tail \s*\( and return the rest after the open parenthesis. -/
def parenTail (cs : List Char) : Option (List Char) :=
  match cs.dropWhile isWsChar with
  | c :: rest => if c = '(' then some rest else none
  | [] => none

/-- Match the tail \s+ and return the rest after the whitespace run. -/
def wsTail (cs : List Char) : Option (List Char) :=
  if (cs.takeWhile isWsChar).isEmpty then none else some (cs.dropWhile isWsChar)

/-- Try the name part common to the three patterns: the two-word capture, the
negated quote lookahead, then the pattern-specific tail. -/
def matchNameWithTail (tail : List Char → Option (List Char)) (cs : List Char) :
    Option (List Char × List Char) :=
  match matchTwoWords cs with
  | none => none
  | some (cap, r) =>
    if quoteAhead r then none
    else match tail r with
      | none => none
      | some rest => some (cap, rest)

/-- Attempt, at the head of the list, the source regex
CREATE\s+TABLE\s+(?:IF\s+NOT\s+EXISTS\s+)?(\w+\s+\w+)(?! quote )\s*\( .
The optional group is tried greedily first, as a backtracking engine does. -/
def matchCreate (cs : List Char) : Option (List Char × List Char) :=
  match matchKwWs "create" cs with
  | none => none
  | some r1 =>
    match matchKwWs "table" r1 with
    | none => none
    | some r2 =>
      match (matchKwWs "if" r2).bind (matchKwWs "not") |>.bind (matchKwWs "exists") with
      | some r2' =>
        match matchNameWithTail parenTail r2' with
        | some hit => some hit
        | none => matchNameWithTail parenTail r2
      | none => matchNameWithTail parenTail r2

/-- Attempt, at the head of the list, the source regex
ALTER\s+TABLE\s+(\w+\s+\w+)(?! quote )\s+ . -/
def matchAlter (cs : List Char) : Option (List Char × List Char) :=
  match matchKwWs "alter" cs with
  | none => none
  | some r1 =>
    match matchKwWs "table" r1 with
    | none => none
    | some r2 => matchNameWithTail wsTail r2

/-- Attempt, at the head of the list, the source regex
REFERENCES\s+(\w+\s+\w+)(?! quote )\s*\( . -/
def matchRefs (cs : List Char) : Option (List Char × List Char) :=
  match matchKwWs "references" cs with
  | none => none
  | some r1 => matchNameWithTail parenTail r1

/-- One global-replace pass: scan left to right, replace each match by
before ++ capture ++ after, and continue after the match, as a JavaScript
global replace does.  The fuel only bounds the recursion; every step consumes
at least one character, so length + 1 fuel always suffices. -/
def replaceAllAux (m : List Char → Option (List Char × List Char))
    (bef aft : List Char) : Nat → List Char → List Char
  | 0, cs => cs
  | _ + 1, [] => []
  | fuel + 1, c :: cs =>
    match m (c :: cs) with
    | some (cap, rest) => bef ++ cap ++ aft ++ replaceAllAux m bef aft fuel rest
    | none => c :: replaceAllAux m bef aft fuel cs

/-- The ensureTableNamesAreQuoted repair pass of src/app/browse/ui.tsx
(lines 595-609): three sequential global regex replaces wrapping a bare
two-word name after CREATE TABLE, ALTER TABLE or REFERENCES in double
quotes. -/
def ensureTableNamesAreQuoted (sql : String) : String :=
  let s1 := replaceAllAux matchCreate "CREATE TABLE \"".data "\" (".data
    (sql.data.length + 1) sql.data
  let s2 := replaceAllAux matchAlter "ALTER TABLE \"".data "\" ".data
    (s1.length + 1) s1
  let s3 := replaceAllAux matchRefs "REFERENCES \"".data "\" (".data
    (s2.length + 1) s2
  String.mk s3

/-! ## The duplicate-ALTER-TABLE removal pass -/

/-- Does the pattern occur as a contiguous substring? -/
def hasSubstr (pat : List Char) : List Char → Bool
  | [] => pat.isEmpty
  | c :: cs => pat.isPrefixOf (c :: cs) || hasSubstr pat cs

/-- Does the one-line regex ADD\s+CONSTRAINT\s+(?: quote )?([^ quote \s]+)...
match starting exactly here?  After the forced whitespace run the head is
non-whitespace; an optional quote must be followed by one more character that
is neither a quote nor whitespace. -/
def addConstraintAt (cs : List Char) : Bool :=
  match (matchKwWs "add" cs).bind (matchKwWs "constraint") with
  | none => false
  | some r =>
    match r with
    | [] => false
    | c :: rest =>
      if isQuoteChar c then
        match rest with
        | d :: _ => !(isQuoteChar d) && !(isWsChar d)
        | [] => false
      else true

/-- Does the ADD CONSTRAINT regex match anywhere in the line? -/
def hasAddConstraint : List Char → Bool
  | [] => false
  | c :: cs => addConstraintAt (c :: cs) || hasAddConstraint cs

/-- JavaScript String.prototype.trim, restricted to the ASCII whitespace
set. -/
def jsTrim (cs : List Char) : List Char :=
  ((cs.dropWhile isWsChar).reverse.dropWhile isWsChar).reverse

/-- String-valued version of jsTrim. -/
def jsTrimS (s : String) : String := String.mk (jsTrim s.data)

/-- Does a split delimiter match start here?  The splitting regex of the
source is (-- [^\n]+): dash, dash, space, then at least one character that is
not a newline. -/
def isDelimStart : List Char → Bool
  | '-' :: '-' :: ' ' :: d :: _ => d != '\n'
  | _ => false

/-- Find the leftmost delimiter match: returns the text before it, the
delimiter itself (greedy to the end of the line) and the rest. -/
def findDelim : List Char → Option (List Char × List Char × List Char)
  | [] => none
  | c :: cs =>
    if isDelimStart (c :: cs) then
      let body := (cs.drop 2).takeWhile (fun x => x != '\n')
      let rest := (cs.drop 2).dropWhile (fun x => x != '\n')
      some ([], '-' :: '-' :: ' ' :: body, rest)
    else
      match findDelim cs with
      | some (p, d, r) => some (c :: p, d, r)
      | none => none

/-- Model of sql.split(/(-- [^\n]+)/): because the group captures, JavaScript
keeps each delimiter as its own entry of the result.  Every delimiter is at
least four characters long, so length + 1 fuel always suffices. -/
def splitOnDelims : Nat → List Char → List (List Char)
  | 0, cs => [cs]
  | fuel + 1, cs =>
    match findDelim cs with
    | none => [cs]
    | some (p, d, r) => p :: d :: splitOnDelims fuel r

/-- The per-line de-duplication loop of removeDuplicateAlterTableStatements:
a line both matching the ADD CONSTRAINT regex and starting (after trimming)
with the literal ALTER TABLE is kept only if its trimmed text has not been
seen; every other line is kept.  The seen set is threaded through, since the
source declares it outside the section loop. -/
def dedupLines (seen : List String) : List (List Char) → List String × List (List Char)
  | [] => (seen, [])
  | l :: ls =>
    if hasAddConstraint l && "ALTER TABLE".data.isPrefixOf (jsTrim l) then
      let stmt := String.mk (jsTrim l)
      if seen.contains stmt then dedupLines seen ls
      else
        let (seen', ls') := dedupLines (seen ++ [stmt]) ls
        (seen', l :: ls')
    else
      let (seen', ls') := dedupLines seen ls
      (seen', l :: ls')

/-- Process one section: only a section containing the literal text
Foreign Key Constraints is de-duplicated line by line; any other section
passes through unchanged. -/
def processSection (seen : List String) (sec : List Char) :
    List String × List Char :=
  if hasSubstr "Foreign Key Constraints".data sec then
    let (seen', lines') := dedupLines seen (sec.splitOn '\n')
    (seen', (lines'.intersperse ['\n']).flatten)
  else (seen, sec)

/-- Process all sections in order, threading the shared seen set, and join
with the empty separator as the source does. -/
def processSections (seen : List String) : List (List Char) → List Char
  | [] => []
  | s :: ss =>
    let (seen', s') := processSection seen s
    s' ++ processSections seen' ss

/-- The removeDuplicateAlterTableStatements repair pass of
src/app/browse/ui.tsx (lines 614-657). -/
def removeDuplicateAlterTableStatements (sql : String) : String :=
  String.mk (processSections [] (splitOnDelims (sql.data.length + 1) sql.data))

/-- Modelled from the spec: fixCommonSqlIssues lives in
SQL-Editor/sql-validation, which is not among the provided sources.  The spec
describes it as correcting "a fixed set of common authoring mistakes (e.g.,
missing statement terminators, mismatched/missing parens around column
lists)" and requires it to be idempotent; it is modelled here by the
statement-terminator rule: append a final semicolon when the trimmed text is
nonempty and does not already end with one. -/
def fixCommonSqlIssues (s : String) : String :=
  let t := jsTrim s.data
  if !t.isEmpty && !(t.getLast? == some ';') then s ++ ";" else s

/-- The full repair pipeline run by a non-live apply
(src/app/browse/ui.tsx lines 507-527), parameterized by the
fixCommonSqlIssues implementation. -/
def repairPipeline (fix : String → String) (sql : String) : String :=
  removeDuplicateAlterTableStatements (fix (ensureTableNamesAreQuoted sql))

/-! ## The schema graph data model and the editor state -/

/-- A canvas position; every React Flow node carries one. -/
structure Point where
  x : Int
  y : Int
deriving DecidableEq

/-- A column of a table, as stored in a node's data.schema array. -/
structure Column where
  id : String
  title : String
  type : String
  constraints : List String
deriving DecidableEq

/-- The data payload of a schema node.  An absent color is modelled by the
empty string, which is exactly what the source's JavaScript falsiness checks
treat it as. -/
structure SchemaNodeData where
  label : String
  color : String
  schema : List Column
deriving DecidableEq

/-- A table node of the schema graph.  The style payload is opaque here.
Every node carries a position (the React Flow node type requires one), so the
source's truthiness guard on nodeToPreserve.position always passes on a
match. -/
structure SchemaNode where
  id : String
  position : Point
  style : Option String
  data : SchemaNodeData
deriving DecidableEq

/-- A foreign-key edge of the schema graph; opaque payload for the editor
operations modelled here. -/
structure FkEdge where
  id : String
  source : String
  target : String
deriving DecidableEq

/-- A Postgres enum type of the schema graph. -/
structure EnumTypeDef where
  name : String
  values : List String
deriving DecidableEq

/-- The two graph-affecting SQL settings. -/
structure SqlSettings where
  caseSensitiveIdentifiers : Bool
  useInlineConstraints : Bool
deriving DecidableEq

/-- The result of a successful parseSqlToSchema call. -/
structure ParsedSchema where
  nodes : List SchemaNode
  edges : List FkEdge
  enumTypes : List EnumTypeDef
deriving DecidableEq

/-- The state of the SqlEditor component together with the schema store it
mutates: the committed graph (nodes, edges, enumTypes, settings), the store's
SQL code, and the component-local dbType, appliedSql, sqlContent, editableSql,
isEditing, error and liveEditMode state.  Toasts shown to the user are
accumulated in a list. -/
structure EditorState where
  nodes : List SchemaNode
  edges : List FkEdge
  enumTypes : List EnumTypeDef
  settings : SqlSettings
  sqlCode : String
  dbType : String
  appliedSql : String
  sqlContent : String
  editableSql : String
  isEditing : Bool
  error : Option String
  liveEditMode : Bool
  toasts : List String
deriving DecidableEq

/-- The type of the external generateSql function (SQL-Editor/sqlGenerators,
not among the provided sources): dialect, nodes, edges, enum types and
settings to DDL text. -/
def GenSql := String → List SchemaNode → List FkEdge → List EnumTypeDef →
  SqlSettings → String

/-- The type of the external parseSqlToSchema function
(SQL-Editor/sqlParser, not among the provided sources): a thrown parse error
is an error value, and the source's null-result guard is the none case. -/
def ParseSql := String → Except String (Option ParsedSchema)

/-! ## Reconciliation (node preservation) -/

/-- JavaScript String.prototype.toLowerCase restricted to the character-wise
Char.toLower map, as the case-insensitive label comparison needs. -/
def lowerS (s : String) : String := String.mk (s.data.map Char.toLower)

/-- The node-preservation step of handleApplySqlChangesInternal
(src/app/browse/ui.tsx lines 538-564): look the newly parsed node up in the
previously committed nodes, first by id, else by label with both labels
nonempty and compared case-insensitively, and copy the found node's position,
style and color onto the new node. -/
def preserveNode (oldNodes : List SchemaNode) (newNode : SchemaNode) :
    SchemaNode :=
  let existingNode := oldNodes.find? (fun n => n.id == newNode.id)
  let existingNodeByLabel :=
    match existingNode with
    | some _ => none
    | none =>
      oldNodes.find? (fun n =>
        n.data.label != "" && newNode.data.label != "" &&
        lowerS n.data.label == lowerS newNode.data.label)
  let nodeToPreserve :=
    match existingNode with
    | some n => some n
    | none => existingNodeByLabel
  match nodeToPreserve with
  | some old =>
    { newNode with
      position := old.position
      style := old.style
      data := { newNode.data with
        color := if old.data.color != "" then old.data.color
                 else newNode.data.color } }
  | none => newNode

/-- Following the spec's words: reconciliation matches a new table against
the old graph first by exact id, else by (nonempty) case-insensitive label.
Stated separately from preserveNode so that the reconciliation theorem
relates the source code to the spec's matching rule. -/
def specReconcileMatch (oldNodes : List SchemaNode) (newNode : SchemaNode) :
    Option SchemaNode :=
  match oldNodes.find? (fun n => n.id == newNode.id) with
  | some n => some n
  | none =>
    oldNodes.find? (fun n =>
      n.data.label != "" && newNode.data.label != "" &&
      lowerS n.data.label == lowerS newNode.data.label)

/-! ## The sync controller operations -/

/-- handleUpdateSchema (src/app/browse/ui.tsx lines 486-497): replace nodes
and edges, replace enum types only when the new list is nonempty, and store
the current editable SQL as the code. -/
def handleUpdateSchema (st : EditorState) (newNodes : List SchemaNode)
    (newEdges : List FkEdge) (newEnumTypes : List EnumTypeDef) : EditorState :=
  { st with
    nodes := newNodes
    edges := newEdges
    enumTypes := if newEnumTypes.length > 0 then newEnumTypes else st.enumTypes
    sqlCode := st.editableSql }

/-- handleApplySqlChangesInternal (src/app/browse/ui.tsx lines 499-592),
parameterized by the external parse and fixCommonSqlIssues functions.  The
error is first cleared; empty (after trimming) input fails immediately; a
non-live apply runs the repair pipeline while a live update parses the raw
text; a parse error only sets the error message; on success the preserved
nodes, the edges and (when nonempty) the enum types are committed, the
processed SQL becomes the applied snapshot and a non-live apply leaves the
editing state with a success toast. -/
def handleApplySqlChangesInternal (parse : ParseSql) (fix : String → String)
    (st : EditorState) (sql : String) (isLiveUpdate : Bool) : EditorState :=
  if jsTrimS sql = "" then { st with error := some "SQL cannot be empty" }
  else
    let processedSql := if isLiveUpdate then sql else repairPipeline fix sql
    match parse processedSql with
    | .error msg => { st with error := some ("Failed to parse SQL: " ++ msg) }
    | .ok none => { st with error := none }
    | .ok (some parsedSchema) =>
      let preservedNodes := parsedSchema.nodes.map (preserveNode st.nodes)
      let st1 := handleUpdateSchema { st with error := none }
        preservedNodes parsedSchema.edges parsedSchema.enumTypes
      let st2 := { st1 with appliedSql := processedSql }
      if isLiveUpdate then st2
      else { st2 with
        isEditing := false
        toasts := st2.toasts ++ ["SQL changes applied successfully"] }

/-- cancelEdit (src/app/browse/ui.tsx lines 663-667): leave editing, reset
the editable text to the applied snapshot, clear the error. -/
def cancelEdit (st : EditorState) : EditorState :=
  { st with isEditing := false, editableSql := st.appliedSql, error := none }

/-- The Edit button (src/app/browse/ui.tsx line 753): enter editing. -/
def startEdit (st : EditorState) : EditorState :=
  { st with isEditing := true }

/-- A change of the editable SQL text together with the live-update effect
(src/app/browse/ui.tsx lines 401-405): when editing with live mode on and the
new text nonempty (JavaScript truthiness), the apply runs as a live update. -/
def setEditableSqlText (parse : ParseSql) (fix : String → String)
    (st : EditorState) (text : String) : EditorState :=
  let st' := { st with editableSql := text }
  if st'.isEditing && st'.liveEditMode && text != "" then
    handleApplySqlChangesInternal parse fix st' text true
  else st'

/-- generateSql applied to the current state, as every regeneration effect
calls it. -/
def generateNow (gen : GenSql) (st : EditorState) : String :=
  gen st.dbType st.nodes st.edges st.enumTypes st.settings

/-- The settings-change effect (src/app/browse/ui.tsx lines 375-398): only
when not editing, regenerate and overwrite the displayed, applied and
editable SQL and the stored code. -/
def settingsChangeEffect (gen : GenSql) (st : EditorState) : EditorState :=
  if st.isEditing then st
  else
    let newSql := generateNow gen st
    { st with
      sqlContent := newSql
      appliedSql := newSql
      editableSql := newSql
      sqlCode := newSql }

/-- The forced-regeneration effect (src/app/browse/ui.tsx lines 408-431):
regenerate and overwrite the displayed and applied SQL and the stored code
regardless of the editing state; the editable text is overwritten only when
not editing. -/
def forceRegenerateEffect (gen : GenSql) (st : EditorState) : EditorState :=
  let newSql := generateNow gen st
  { st with
    sqlContent := newSql
    appliedSql := newSql
    editableSql := if st.isEditing then st.editableSql else newSql
    sqlCode := newSql }

/-- The dbType-change effect (src/app/browse/ui.tsx lines 356-372): always
overwrite the displayed SQL; overwrite the editable and applied SQL and the
stored code only when not editing. -/
def dbTypeChangeEffect (gen : GenSql) (st : EditorState) : EditorState :=
  let newSql := generateNow gen st
  { st with
    sqlContent := newSql
    editableSql := if st.isEditing then st.editableSql else newSql
    appliedSql := if st.isEditing then st.appliedSql else newSql
    sqlCode := if st.isEditing then st.sqlCode else newSql }

/-- handleToggleCaseSensitive (src/app/browse/ui.tsx lines 433-450) together
with the two reactive effects its settings update triggers, in source order.
When editing, an informational toast tells the user the pending edits are
preserved.  Both effects read the same committed graph and flipped settings,
so running them in sequence equals the batched React semantics. -/
def handleToggleCaseSensitive (gen : GenSql) (st : EditorState) : EditorState :=
  let st1 := { st with settings :=
    { st.settings with
      caseSensitiveIdentifiers := !st.settings.caseSensitiveIdentifiers } }
  let st2 :=
    if st1.isEditing then
      { st1 with toasts :=
        st1.toasts ++ ["Apply your changes to see updates with new settings"] }
    else st1
  forceRegenerateEffect gen (settingsChangeEffect gen st2)

/-- handleToggleInlineConstraints (src/app/browse/ui.tsx lines 453-472)
together with the two reactive effects its settings update triggers. -/
def handleToggleInlineConstraints (gen : GenSql) (st : EditorState) :
    EditorState :=
  let st1 := { st with settings :=
    { st.settings with
      useInlineConstraints := !st.settings.useInlineConstraints } }
  let st2 :=
    if st1.isEditing then
      { st1 with toasts :=
        st1.toasts ++ ["Apply your changes to see updates with new settings"] }
    else st1
  forceRegenerateEffect gen (settingsChangeEffect gen st2)

/-! ## The sidebar column rename (src/components/schema-sidebar.tsx) -/

/-- The title branch of updateColumn (src/components/schema-sidebar.tsx lines
268-286): the titles of the other columns are collected; if the requested
title collides, it is suffixed with an underscore and the column index; the
column at the index is then updated. -/
def updateColumnTitle (schema : List Column) (index : Nat) (value : String) :
    List Column :=
  let existingTitles := (schema.map (fun c => c.title)).eraseIdx index
  let v := if existingTitles.contains value
    then value ++ "_" ++ toString index else value
  match schema.get? index with
  | some c => schema.set index { c with title := v }
  | none => schema

/-! ## Spec-side abbreviations used in theorem statements -/

/-- The settings after toggling case-sensitive quoting. -/
def flipCase (s : SqlSettings) : SqlSettings :=
  { s with caseSensitiveIdentifiers := !s.caseSensitiveIdentifiers }

/-- The DDL the generator produces right after the case-sensitivity toggle. -/
def regenAfterFlip (gen : GenSql) (st : EditorState) : String :=
  gen st.dbType st.nodes st.edges st.enumTypes (flipCase st.settings)

/-- The settings after toggling inline constraints. -/
def flipInline (s : SqlSettings) : SqlSettings :=
  { s with useInlineConstraints := !s.useInlineConstraints }

/-- The DDL the generator produces right after the inline-constraints
toggle. -/
def regenAfterInlineFlip (gen : GenSql) (st : EditorState) : String :=
  gen st.dbType st.nodes st.edges st.enumTypes (flipInline st.settings)

/-! ## Concrete fixtures for witnesses and counterexamples -/

/-- A parse function that always fails. -/
def parseAlwaysFails : ParseSql := fun _ => .error "boom"

/-- The identity as a fixCommonSqlIssues instance. -/
def fixId : String → String := fun s => s

/-- A generator producing a fixed text; generation is external code. -/
def genConst : GenSql := fun _ _ _ _ _ => "GEN"

/-- A clean baseline editor state with OLD as the committed DDL. -/
def cleanState : EditorState where
  nodes := []
  edges := []
  enumTypes := []
  settings := { caseSensitiveIdentifiers := false, useInlineConstraints := true }
  sqlCode := "OLD"
  dbType := "postgresql"
  appliedSql := "OLD"
  sqlContent := "OLD"
  editableSql := "OLD"
  isEditing := false
  error := none
  liveEditMode := false
  toasts := []

/-- The clean state after the user pressed Edit and typed. -/
def editingState : EditorState :=
  { cleanState with isEditing := true, editableSql := "USER EDITED" }

/-- An editing state with live-edit mode on. -/
def liveState : EditorState :=
  { cleanState with isEditing := true, liveEditMode := true }

/-- A raw SQL text the repair pass changes (bare two-word table name). -/
def rawLiveSql : String := "CREATE TABLE my tab (x int);"

/-- The same text after the repair pipeline quotes the table name. -/
def repairedLiveSql : String := "CREATE TABLE \"my tab\" (x int);"

/-- An empty parse result. -/
def psEmpty : ParsedSchema where
  nodes := []
  edges := []
  enumTypes := []

/-- A parse function succeeding only on the repaired text. -/
def parseRepairedOnly : ParseSql := fun t =>
  if t = repairedLiveSql then .ok (some psEmpty) else .error "bad"

/-- An old committed node: label Users, position (10, 20). -/
def oldUsersNode : SchemaNode where
  id := "t1"
  position := { x := 10, y := 20 }
  style := some "st"
  data := { label := "Users", color := "", schema := [] }

/-- A freshly parsed node: different id, label users, default position. -/
def newUsersNode : SchemaNode where
  id := "t9"
  position := { x := 0, y := 0 }
  style := none
  data :=
    { label := "users"
      color := ""
      schema := [{ id := "c1", title := "id", type := "uuid",
                   constraints := ["primary"] }] }

/-- Two character-for-character identical ALTER TABLE statements below the
usual foreign-key header comment. -/
def fkHeaderDupInput : String :=
  "-- Foreign Key Constraints\nALTER TABLE \"t\" ADD CONSTRAINT c1 FOREIGN KEY (\"a\") REFERENCES \"u\" (\"a\");\nALTER TABLE \"t\" ADD CONSTRAINT c1 FOREIGN KEY (\"a\") REFERENCES \"u\" (\"a\");"

/-- The same duplicate statements with the marker text not matching the
delimiter pattern (no space after the dashes), so the marker stays inside the
section holding the ALTER lines. -/
def fkInlineDupInput : String :=
  "--Foreign Key Constraints\nALTER TABLE \"t\" ADD CONSTRAINT c1 X;\nALTER TABLE \"t\" ADD CONSTRAINT c1 X;"

/-- An input on which repair is not idempotent: removing the duplicate ALTER
line brings the CREATE TABLE fragment next to the bare two-word name, which
only the second run quotes. -/
def fkSectionIdemCex : String :=
  "--Foreign Key Constraints\nALTER TABLE \"t\" ADD CONSTRAINT c1 FOREIGN KEY (\"a\") REFERENCES \"u\" (\"a\");\nCREATE TABLE\nALTER TABLE \"t\" ADD CONSTRAINT c1 FOREIGN KEY (\"a\") REFERENCES \"u\" (\"a\");\nmy tab (x int);"

/-- A well-formed statement on which every repair pass is the identity. -/
def simpleCreateSql : String := "CREATE TABLE a (x int);"

/-- Columns whose titles are pairwise distinct but where renaming column 2 to
a collides and the suffix a_2 collides again. -/
def dupDemoColumns : List Column :=
  [{ id := "c0", title := "a", type := "varchar", constraints := [] },
   { id := "c1", title := "a_2", type := "varchar", constraints := [] },
   { id := "c2", title := "x", type := "varchar", constraints := [] }]

/-! ## Helper lemma for the column-title invariant -/

/-- Setting index i to an element that does not occur at the other positions
preserves pairwise distinctness. -/
theorem nodup_set_of_not_mem_eraseIdx {α : Type _} (l : List α) (i : Nat)
    (a : α) (hl : l.Nodup) (ha : a ∉ l.eraseIdx i) : (l.set i a).Nodup := by
  induction l generalizing i with
  | nil => simp
  | cons x xs ih =>
    rcases List.nodup_cons.mp hl with ⟨hx, hxs⟩
    cases i with
    | zero =>
      rw [List.eraseIdx_cons_zero] at ha
      exact List.nodup_cons.mpr ⟨ha, hxs⟩
    | succ n =>
      rw [List.eraseIdx_cons_succ, List.mem_cons] at ha
      push_neg at ha
      refine List.nodup_cons.mpr ⟨?_, ih n hxs ha.2⟩
      intro hmem
      rcases List.mem_or_eq_of_mem_set hmem with h | h
      · exact hx h
      · exact ha.1 h.symm

/-! ## Claim theorems -/

/-- C1: when parsing fails, a (non-live) apply leaves the whole editor state
- committed nodes, edges, enum types, displayed DDL, applied snapshot,
editable text and the editing flag - unchanged, and only sets the inline
error message; in particular nothing is partially committed and an apply
started from the Editing state stays in the Editing state. -/
theorem apply_parse_failure_is_atomic (parse : ParseSql) (fix : String → String)
    (st : EditorState) (sql msg : String)
    (hne : jsTrimS sql ≠ "")
    (hp : parse (repairPipeline fix sql) = .error msg) :
    handleApplySqlChangesInternal parse fix st sql false =
      { st with error := some ("Failed to parse SQL: " ++ msg) } := by
  unfold handleApplySqlChangesInternal
  rw [if_neg hne]
  simp only [Bool.false_eq_true, if_false, hp]

/-- Witness for C1 at a concrete state, SQL text and failing parser. -/
theorem apply_parse_failure_is_atomic_witness :
    handleApplySqlChangesInternal parseAlwaysFails fixId editingState
        "CREATE TABLE t (x int);" false =
      { editingState with error := some ("Failed to parse SQL: " ++ "boom") } :=
  apply_parse_failure_is_atomic parseAlwaysFails fixId editingState
    "CREATE TABLE t (x int);" "boom" (by decide) rfl

/-- C2 counterexample: in live-edit mode the repair passes are skipped.  At
this input the repair pipeline would produce a text the parser accepts, yet
the live update hands the parser the raw text and fails, whereas the claimed
Repair-then-Parse pipeline would have succeeded and committed. -/
theorem live_update_skips_repair_cex :
    (setEditableSqlText parseRepairedOnly fixId liveState rawLiveSql).error =
        some "Failed to parse SQL: bad"
      ∧ repairPipeline fixId rawLiveSql = repairedLiveSql
      ∧ parseRepairedOnly repairedLiveSql = .ok (some psEmpty) :=
  ⟨by decide, by decide, rfl⟩

/-- C2 amended: in live-edit mode every change to a (non-whitespace) editable
text runs Parse, Reconcile and commit directly on the raw text - the repair
passes are skipped for live updates; a parse failure sets the displayed error
without reverting the text buffer, and neither the editing nor the live flag
changes in any outcome. -/
theorem live_update_parses_raw_text (parse : ParseSql) (fix : String → String)
    (st : EditorState) (s : String)
    (hE : st.isEditing = true) (hL : st.liveEditMode = true)
    (hne : jsTrimS s ≠ "") :
    setEditableSqlText parse fix st s =
      match parse s with
      | .error msg =>
        { st with editableSql := s
                  error := some ("Failed to parse SQL: " ++ msg) }
      | .ok none => { st with editableSql := s, error := none }
      | .ok (some ps) =>
        { st with
          editableSql := s
          error := none
          nodes := ps.nodes.map (preserveNode st.nodes)
          edges := ps.edges
          enumTypes := if ps.enumTypes.length > 0 then ps.enumTypes
                       else st.enumTypes
          sqlCode := s
          appliedSql := s } := by
  have hs : s ≠ "" := by
    intro h
    exact hne (by simp [h, jsTrimS, jsTrim])
  unfold setEditableSqlText
  rw [hE, hL]
  simp only [Bool.true_and, bne_iff_ne, ne_eq, hs, not_false_eq_true, if_true]
  unfold handleApplySqlChangesInternal handleUpdateSchema
  rw [if_neg hne]
  cases hps : parse s with
  | error msg => simp [hps]
  | ok o =>
    cases o with
    | none => simp [hps]
    | some ps => simp [hps]

/-- Witness for the amended C2 at a concrete live state and failing parser:
the buffer keeps the typed text and only the error is set. -/
theorem live_update_parses_raw_text_witness :
    setEditableSqlText parseAlwaysFails fixId liveState "CREATE TABLE t (x int);" =
      { liveState with
        editableSql := "CREATE TABLE t (x int);"
        error := some ("Failed to parse SQL: " ++ "boom") } :=
  live_update_parses_raw_text parseAlwaysFails fixId liveState
    "CREATE TABLE t (x int);" rfl rfl (by decide)

/-- C3: at the claim's own scenario - a foreign-key section introduced by the
header comment, holding two character-for-character identical ALTER TABLE
statements - the pass returns its input unchanged, because the splitting
regex captures the header comment into its own section and the section
holding the ALTER lines no longer contains the marker text.  The second
conjunct shows the very same duplicate lines are removed as soon as the
marker text sits inside the section (here: no space after the dashes), so
the miss is caused by the split. -/
theorem dedup_ignores_fk_header_sections :
    removeDuplicateAlterTableStatements fkHeaderDupInput = fkHeaderDupInput
    ∧ removeDuplicateAlterTableStatements fkInlineDupInput =
        "--Foreign Key Constraints\nALTER TABLE \"t\" ADD CONSTRAINT c1 X;" :=
  ⟨by decide, by decide⟩

/-- C4: reconciliation is layout-only.  Matching follows the spec's rule
(first exact id, else nonempty case-insensitive label); a matched new node
receives exactly the old node's position, style and color override while its
id, label and column schema stay those of the parsed node, and an unmatched
node passes through unchanged. -/
theorem reconcile_merge_is_layout_only (olds : List SchemaNode)
    (nn : SchemaNode) :
    (∀ m, specReconcileMatch olds nn = some m →
      preserveNode olds nn =
        { nn with
          position := m.position
          style := m.style
          data := { nn.data with
            color := if m.data.color != "" then m.data.color
                     else nn.data.color } })
    ∧ (specReconcileMatch olds nn = none → preserveNode olds nn = nn) := by
  unfold preserveNode specReconcileMatch
  cases hid : olds.find? (fun n => n.id == nn.id) with
  | some m0 =>
    refine ⟨fun m hm => ?_, fun hm => ?_⟩
    · simp only at hm
      cases hm
      simp
    · simp at hm
  | none =>
    cases hlb : olds.find? (fun n =>
        n.data.label != "" && nn.data.label != "" &&
        lowerS n.data.label == lowerS nn.data.label) with
    | some m0 =>
      refine ⟨fun m hm => ?_, fun hm => ?_⟩
      · simp only at hm
        cases hm
        simp
      · simp at hm
    | none =>
      exact ⟨fun m hm => by simp at hm, fun _ => rfl⟩

/-- Witness for C4: the claim's own example.  The old node has label Users
and position (10, 20); the parsed node has a different id and the label
users; the merged node keeps the parsed schema but sits at (10, 20) with the
old style. -/
theorem reconcile_merge_is_layout_only_witness :
    preserveNode [oldUsersNode] newUsersNode =
      { newUsersNode with position := { x := 10, y := 20 }, style := some "st" } := by
  have h := (reconcile_merge_is_layout_only [oldUsersNode] newUsersNode).1
    oldUsersNode (by decide)
  exact h.trans (by decide)

/-- C5 counterexample: a case-sensitivity toggle made while editing
immediately regenerates both the displayed DDL and the applied-SQL rollback
snapshot from the graph (through the forced-regeneration effect), so they are
not left untouched until the next successful apply; only the editable text
survives. -/
theorem settings_change_while_editing_regenerates_cex :
    (handleToggleCaseSensitive genConst editingState).sqlContent ≠
        editingState.sqlContent
      ∧ (handleToggleCaseSensitive genConst editingState).appliedSql ≠
        editingState.appliedSql
      ∧ (handleToggleCaseSensitive genConst editingState).editableSql =
        editingState.editableSql
      ∧ editingState.isEditing = true := by
  refine ⟨by decide, by decide, by decide, rfl⟩

/-- C5 amended: either graph-affecting setting toggle (case-sensitive
quoting or inline constraints) made while Editing or LiveEditing keeps the
user's editable text and shows the pending-edits toast, but it immediately
regenerates the displayed DDL, the applied-SQL snapshot and the stored code
from the current graph under the new settings; the same toggle while Clean
immediately regenerates all four texts and shows no toast. -/
theorem graph_setting_toggles_modes (gen : GenSql) (st : EditorState) :
    ((st.isEditing = true →
      handleToggleCaseSensitive gen st =
        { st with
          settings := flipCase st.settings
          toasts := st.toasts ++
            ["Apply your changes to see updates with new settings"]
          sqlContent := regenAfterFlip gen st
          appliedSql := regenAfterFlip gen st
          sqlCode := regenAfterFlip gen st })
    ∧ (st.isEditing = false →
      handleToggleCaseSensitive gen st =
        { st with
          settings := flipCase st.settings
          sqlContent := regenAfterFlip gen st
          appliedSql := regenAfterFlip gen st
          editableSql := regenAfterFlip gen st
          sqlCode := regenAfterFlip gen st }))
    ∧ ((st.isEditing = true →
      handleToggleInlineConstraints gen st =
        { st with
          settings := flipInline st.settings
          toasts := st.toasts ++
            ["Apply your changes to see updates with new settings"]
          sqlContent := regenAfterInlineFlip gen st
          appliedSql := regenAfterInlineFlip gen st
          sqlCode := regenAfterInlineFlip gen st })
    ∧ (st.isEditing = false →
      handleToggleInlineConstraints gen st =
        { st with
          settings := flipInline st.settings
          sqlContent := regenAfterInlineFlip gen st
          appliedSql := regenAfterInlineFlip gen st
          editableSql := regenAfterInlineFlip gen st
          sqlCode := regenAfterInlineFlip gen st })) := by
  refine ⟨⟨fun hE => ?_, fun hE => ?_⟩, fun hE => ?_, fun hE => ?_⟩
  · unfold handleToggleCaseSensitive settingsChangeEffect forceRegenerateEffect
      generateNow flipCase regenAfterFlip
    simp [hE, flipCase]
  · unfold handleToggleCaseSensitive settingsChangeEffect forceRegenerateEffect
      generateNow flipCase regenAfterFlip
    simp [hE, flipCase]
  · unfold handleToggleInlineConstraints settingsChangeEffect
      forceRegenerateEffect generateNow flipInline regenAfterInlineFlip
    simp [hE, flipInline]
  · unfold handleToggleInlineConstraints settingsChangeEffect
      forceRegenerateEffect generateNow flipInline regenAfterInlineFlip
    simp [hE, flipInline]

/-- Witness for the amended C5 at the concrete editing state and constant
generator, exercising both toggles. -/
theorem graph_setting_toggles_modes_witness :
    handleToggleCaseSensitive genConst editingState =
      { editingState with
        settings := { caseSensitiveIdentifiers := true,
                      useInlineConstraints := true }
        toasts := ["Apply your changes to see updates with new settings"]
        sqlContent := "GEN"
        appliedSql := "GEN"
        sqlCode := "GEN" }
    ∧ handleToggleInlineConstraints genConst editingState =
      { editingState with
        settings := { caseSensitiveIdentifiers := false,
                      useInlineConstraints := false }
        toasts := ["Apply your changes to see updates with new settings"]
        sqlContent := "GEN"
        appliedSql := "GEN"
        sqlCode := "GEN" } := by
  constructor
  · exact ((graph_setting_toggles_modes genConst editingState).1.1 rfl).trans
      (by decide)
  · exact ((graph_setting_toggles_modes genConst editingState).2.1 rfl).trans
      (by decide)

/-- C6 counterexample: cancel does not restore the DDL snapshotted when the
edit began.  After entering the edit, typing, and toggling case-sensitive
quoting, the applied snapshot has been overwritten by the regeneration
effect, so cancel restores the regenerated text, not the OLD snapshot. -/
theorem cancel_after_settings_change_cex :
    (cancelEdit (handleToggleCaseSensitive genConst
        (setEditableSqlText parseAlwaysFails fixId (startEdit cleanState)
          "USER TYPED"))).editableSql
      ≠ cleanState.appliedSql := by decide

/-- C6 amended: the rollback point is the running appliedSql value rather
than a snapshot frozen on entering the edit.  Cancel always leaves editing,
resets the editable text to the current appliedSql, clears the error and
never touches the committed graph; when nothing overwrote appliedSql during
the edit, edit-then-type-then-cancel restores exactly the pre-edit state. -/
theorem cancel_edit_restores_applied_snapshot (parse : ParseSql)
    (fix : String → String) (st : EditorState) (s : String)
    (h1 : st.isEditing = false) (h2 : st.liveEditMode = false)
    (h3 : st.error = none) (h4 : st.editableSql = st.appliedSql) :
    cancelEdit (setEditableSqlText parse fix (startEdit st) s) = st
    ∧ ∀ st' : EditorState,
        (cancelEdit st').nodes = st'.nodes
          ∧ (cancelEdit st').edges = st'.edges
          ∧ (cancelEdit st').enumTypes = st'.enumTypes := by
  refine ⟨?_, fun st' => ⟨rfl, rfl, rfl⟩⟩
  unfold setEditableSqlText startEdit cancelEdit
  simp only [h2, Bool.and_false, Bool.false_and, Bool.and_self]
  cases st
  simp_all

/-- Witness for the amended C6: edit, type, cancel returns exactly the clean
state. -/
theorem cancel_edit_restores_applied_snapshot_witness :
    cancelEdit (setEditableSqlText parseAlwaysFails fixId
      (startEdit cleanState) "TYPED") = cleanState :=
  (cancel_edit_restores_applied_snapshot parseAlwaysFails fixId cleanState
    "TYPED" rfl rfl rfl rfl).1

/-- C7 counterexample: the repair pipeline is not idempotent.  On this input
the first run removes a duplicate foreign-key ALTER statement, which brings
the CREATE TABLE fragment next to a bare two-word name across the removed
line; only the second run quotes that name, so the outputs differ. -/
theorem repair_not_idempotent_cex :
    repairPipeline fixCommonSqlIssues
        (repairPipeline fixCommonSqlIssues fkSectionIdemCex)
      ≠ repairPipeline fixCommonSqlIssues fkSectionIdemCex := by decide

/-- C7 amended: repair is not idempotent in general; a removed duplicate line
can expose a new quoting match to the second run.  Idempotence does hold at
every input whose repaired text is a fixed point of each of the three passes
(quoting, fixCommonSqlIssues, de-duplication). -/
theorem repair_idempotent_on_pass_fixed_points (fix : String → String)
    (s : String)
    (h1 : ensureTableNamesAreQuoted (repairPipeline fix s) =
      repairPipeline fix s)
    (h2 : fix (repairPipeline fix s) = repairPipeline fix s)
    (h3 : removeDuplicateAlterTableStatements (repairPipeline fix s) =
      repairPipeline fix s) :
    repairPipeline fix (repairPipeline fix s) = repairPipeline fix s := by
  show removeDuplicateAlterTableStatements
    (fix (ensureTableNamesAreQuoted (repairPipeline fix s))) =
      repairPipeline fix s
  rw [h1, h2, h3]

/-- Witness for the amended C7: a well-formed statement every pass leaves
alone, so repairing twice equals repairing once. -/
theorem repair_idempotent_on_pass_fixed_points_witness :
    repairPipeline fixCommonSqlIssues
        (repairPipeline fixCommonSqlIssues simpleCreateSql)
      = repairPipeline fixCommonSqlIssues simpleCreateSql :=
  repair_idempotent_on_pass_fixed_points fixCommonSqlIssues simpleCreateSql
    (by decide) (by decide) (by decide)

/-- C8: the quote-repair pass rewrites an ALTER TABLE clause whose table name
is a single bare word, wrapping the name together with the following ADD
keyword in double quotes, while a single-word CREATE TABLE clause is left
unchanged (its open parenthesis cannot be a second word token). -/
theorem quote_pass_quotes_single_word_alter_name :
    ensureTableNamesAreQuoted
        "ALTER TABLE orders ADD CONSTRAINT fk1 FOREIGN KEY (id) REFERENCES users (id);"
      = "ALTER TABLE \"orders ADD\" CONSTRAINT fk1 FOREIGN KEY (id) REFERENCES users (id);"
    ∧ ensureTableNamesAreQuoted "CREATE TABLE orders (id uuid);" =
        "CREATE TABLE orders (id uuid);" :=
  ⟨by decide, by decide⟩

/-- C9 counterexample: distinct titles are not preserved by the rename
disambiguation.  Renaming column 2 of [a, a_2, x] to a collides, the
fallback suffixes the index producing a_2, and that clashes with column 1,
so the table ends with a duplicate title. -/
theorem update_column_title_duplicate_cex :
    (dupDemoColumns.map (fun c => c.title)).Nodup
      ∧ ¬ ((updateColumnTitle dupDemoColumns 2 "a").map
            (fun c => c.title)).Nodup :=
  ⟨by decide, by decide⟩

/-- C9 amended: renaming a column to a title held by another column of the
same table is disambiguated by suffixing an underscore and the column index;
the resulting titles are pairwise distinct again provided the suffixed
candidate does not itself occur among the other columns' titles (without that
proviso a duplicate can enter, as the counterexample shows). -/
theorem update_column_title_preserves_nodup (schema : List Column)
    (index : Nat) (value : String)
    (h1 : (schema.map (fun c => c.title)).Nodup)
    (h2 : (value ++ "_" ++ toString index) ∉
      (schema.map (fun c => c.title)).eraseIdx index) :
    ((updateColumnTitle schema index value).map (fun c => c.title)).Nodup := by
  unfold updateColumnTitle
  cases hg : schema.get? index with
  | none => simpa using h1
  | some c =>
    by_cases hc :
        ((schema.map (fun c => c.title)).eraseIdx index).contains value
    · simp only [hc, if_true]
      rw [List.map_set]
      exact nodup_set_of_not_mem_eraseIdx _ index _ h1 h2
    · simp only [hc, if_false]
      rw [List.map_set]
      refine nodup_set_of_not_mem_eraseIdx _ index _ h1 ?_
      intro hmem
      exact hc (List.elem_eq_true_of_mem hmem)

/-- Witness for the amended C9: renaming column 1 of [a, b] to a yields the
suffixed title a_1 and the titles stay pairwise distinct. -/
theorem update_column_title_preserves_nodup_witness :
    ((updateColumnTitle
        [{ id := "c0", title := "a", type := "varchar", constraints := [] },
         { id := "c1", title := "b", type := "varchar", constraints := [] }]
        1 "a").map (fun c => c.title)).Nodup :=
  update_column_title_preserves_nodup _ 1 "a" (by decide) (by decide)

/-- C10: applying SQL whose text trims to nothing fails up front for every
parser, fixer, state and live flag: only the error message is set to
SQL cannot be empty, and nodes, edges, enum types, displayed DDL, applied
snapshot, editable text and the editing flag all stay unchanged. -/
theorem apply_empty_input_guard (parse : ParseSql) (fix : String → String)
    (st : EditorState) (sql : String) (live : Bool)
    (h : jsTrimS sql = "") :
    handleApplySqlChangesInternal parse fix st sql live =
      { st with error := some "SQL cannot be empty" } := by
  unfold handleApplySqlChangesInternal
  rw [if_pos h]

/-- Witness for C10 at a whitespace-only text. -/
theorem apply_empty_input_guard_witness :
    handleApplySqlChangesInternal parseAlwaysFails fixId editingState
        "   \n  " false =
      { editingState with error := some "SQL cannot be empty" } :=
  apply_empty_input_guard parseAlwaysFails fixId editingState "   \n  " false
    (by decide)
